import Mathlib

/- Verification development for the code_compass radial diagram engine.
   Shallow embedding of the ingestion pipeline, diagram model, layout
   constants, node animation, connector anchor geometry, viewport fitting
   (src/layout.py) and the explanation stream handler (src/main.py).
   Real-valued quantities (Python floats) are modelled as rationals. -/

-- ## FakeAPIHandler.read_file_content (src/layout.py lines 64-113)

/-- Text file extensions accepted by FakeAPIHandler.read_file_content. -/
def text_extensions : List String :=
  [".txt", ".py", ".js", ".html", ".css", ".json", ".xml", ".yaml", ".yml",
   ".md", ".rst", ".ini", ".conf", ".sh", ".bat", ".ps1", ".java", ".cpp",
   ".c", ".h", ".hpp", ".cs", ".go", ".rb", ".php", ".pl", ".swift"]

/-- Placeholder string returned when os.path.getsize exceeds max_size. -/
def too_large_message : String :=
  "File too large to display (showing first 10000 bytes)...\n\n"

/-- Python str.lower() as used on the extension (ASCII suffices for the
    extension table). -/
def str_lower (s : String) : String := String.mk (s.data.map Char.toLower)

/-- FakeAPIHandler.read_file_content.  The file is abstracted by its
    (already split off) extension, its byte size as reported by
    os.path.getsize, and the result of opening and reading it, where an
    exception while reading is an `Except.error` carrying str(e).
    `max_size` is the default 10000 used by every caller.  Reading with
    f.read(max_size) returns at most the first 10000 characters. -/
def read_file_content (file_ext : String) (file_size : Nat)
    (file_text : Except String String) : Option String :=
  let ext := str_lower file_ext
  if ext ∈ text_extensions then
    if file_size > 10000 then
      some too_large_message
    else
      match file_text with
      | .ok c => some (c.take 10000)
      | .error msg => some ("Error reading file: " ++ msg)
  else
    none

-- ## FileSystemEmitter (src/layout.py lines 116-189)

/-- One (topic_type, parent, content, api_response, file_content) event as
    emitted through the new_data signal.  api_response and file_content are
    None for subtopic events. -/
structure Event where
  kind : String
  parent : String
  content : String
  api_response : Option String
  file_content : Option String
deriving DecidableEq, Repr

/-- A directory tree: directory name (os.path.basename of its path), the
    plain files directly inside it, and its subdirectories, in the order
    os.walk reports them. -/
inductive FSTree where
  | node (name : String) (files : List String) (subdirs : List FSTree)
deriving Repr

/-- Name of the directory at the root of a tree. -/
def FSTree.name : FSTree → String
  | node n _ _ => n

/-- Directory names excluded from the walk. -/
def exclude_dirs : List String :=
  [".git", ".idea", "__pycache__", "node_modules", "venv", "env"]

mutual

/-- FileSystemEmitter.file_system_generator, one full os.walk pass in
    top-down depth-first order.  `parent` is "Main Topic" at the walk root
    and otherwise os.path.basename(os.path.dirname(root)), i.e. the name of
    the enclosing directory.  The summary provider (FakeAPIHandler.process_file,
    which always returns a string) and the content reader (read_file_content,
    which may return None) are abstracted as functions of the file name. -/
def file_system_generator (api : String → String) (fc : String → Option String)
    (parent : String) : FSTree → List Event
  | .node name files subs =>
    (if name ≠ "" ∧ name ≠ "." ∧ name ∉ exclude_dirs then
      [⟨"subtopic", parent, name, none, none⟩]
     else []) ++
    (if name ∉ exclude_dirs then
      files.map (fun f =>
        ⟨"detail", if name ≠ "." then name else "Main Topic", f,
         some (api f), fc f⟩)
     else []) ++
    walk_subdirs api fc name subs

/-- Descent into the subdirectory list; directories whose name is in
    exclude_dirs are pruned from dirs before os.walk descends into them. -/
def walk_subdirs (api : String → String) (fc : String → Option String)
    (parent : String) : List FSTree → List Event
  | [] => []
  | t :: ts =>
    (if t.name ∈ exclude_dirs then [] else file_system_generator api fc parent t) ++
    walk_subdirs api fc parent ts

end

/-- Dedup key f"{topic_type}:{parent}:{content}" computed in
    FileSystemEmitter.process_directory. -/
def item_key (e : Event) : String :=
  e.kind ++ ":" ++ e.parent ++ ":" ++ e.content

/-- One iteration of the while loop in FileSystemEmitter.process_directory:
    walk the generated event list once against the processed_items set
    (modelled as the list of recorded keys); an event whose key is already
    recorded is dropped, otherwise its key is recorded and the event is
    emitted.  Returns (emitted events in order, final processed_items). -/
def process_directory_once : List Event → List String → List Event × List String
  | [], s => ([], s)
  | e :: rest, s =>
    if item_key e ∈ s then
      process_directory_once rest s
    else
      let r := process_directory_once rest (item_key e :: s)
      (e :: r.1, r.2)

-- ## ClusterDiagramWidget.handle_new_data (src/layout.py lines 733-761)

/-- The diagram model state: self.subtopics (a dict preserving insertion
    order, modelled as an association list: topic label to ordered detail
    labels) and self.api_responses (content label to text). -/
structure DiagramState where
  subtopics : List (String × List String)
  api_responses : List (String × String)
deriving DecidableEq, Repr

/-- Python `key in dict` on the ordered association list. -/
def hasKey (k : String) (l : List (String × List String)) : Bool :=
  l.any (fun p => p.1 == k)

/-- Append one value to the list stored at an existing key, preserving the
    dict's insertion order (Python dict update keeps the key's position). -/
def appendTo (k v : String) : List (String × List String) → List (String × List String)
  | [] => []
  | (k', vs) :: rest =>
    if k' == k then (k', vs ++ [v]) :: rest else (k', vs) :: appendTo k v rest

/-- Python dict assignment d[k] = v: overwrite in place or append a new key. -/
def setResp (k v : String) : List (String × String) → List (String × String)
  | [] => [(k, v)]
  | (k', v') :: rest =>
    if k' == k then (k, v) :: rest else (k', v') :: setResp k v rest

/-- Python truthiness of an optional string payload: None and "" are falsy. -/
def truthy : Option String → Bool
  | none => false
  | some s => s != ""

/-- The two `if api_response:` / `if file_content:` stores into
    self.api_responses performed for a detail event. -/
def storeResponses (st : DiagramState) (content : String)
    (api fileC : Option String) : DiagramState :=
  let st1 :=
    if truthy api then
      { st with api_responses := setResp content (api.getD "") st.api_responses }
    else st
  if truthy fileC then
    { st1 with api_responses :=
        setResp content ("File contents:\n\n" ++ fileC.getD "") st1.api_responses }
  else st1

/-- ClusterDiagramWidget.handle_new_data applied to one event. -/
def handle_new_data (st : DiagramState) (e : Event) : DiagramState :=
  if e.kind == "subtopic" then
    if hasKey e.content st.subtopics then st
    else { st with subtopics := st.subtopics ++ [(e.content, [])] }
  else
    if hasKey e.parent st.subtopics then
      storeResponses
        { st with subtopics := appendTo e.parent e.content st.subtopics }
        e.content e.api_response e.file_content
    else if e.parent == "Main Topic" then
      let st1 :=
        if hasKey "Root Files" st.subtopics then st
        else { st with subtopics := st.subtopics ++ [("Root Files", [])] }
      storeResponses
        { st1 with subtopics := appendTo "Root Files" e.content st1.subtopics }
        e.content e.api_response e.file_content
    else st

/-- Folding a stream of emitted events into the diagram model in emission
    order (queued signal delivery preserves order). -/
def apply_events (st : DiagramState) (evs : List Event) : DiagramState :=
  evs.foldl handle_new_data st

-- ## Radial layout constants and angles (ClusterDiagramWidget.update_scene)

/-- self.distance_from_center. -/
def distance_from_center : ℚ := 500

/-- start_angle in update_scene. -/
def start_angle : ℚ := 90

/-- angle_step = -360.0 / num_subtopics. -/
def topic_angle_step (num_subtopics : ℕ) : ℚ := -360 / num_subtopics

/-- Angle (in degrees) of topic i of num_subtopics:
    start_angle + i * angle_step. -/
def topic_angle_deg (num_subtopics i : ℕ) : ℚ :=
  start_angle + i * topic_angle_step num_subtopics

/-- Polar position (radius, angle in degrees) of topic i relative to the
    scene center; the code realizes it as
    center + distance_from_center * (cos angle, sin angle). -/
def topic_polar (num_subtopics i : ℕ) : ℚ × ℚ :=
  (distance_from_center, topic_angle_deg num_subtopics i)

/-- self.detail_width. -/
def detail_width : ℚ := 500

/-- self.detail_distance. -/
def detail_distance : ℚ := 300

/-- detail_angle_span in update_scene. -/
def detail_angle_span : ℚ := 120

/-- detail_angle_step: -detail_angle_span / max(num_details - 1, 1) when
    num_details > 1, else 0. -/
def detail_angle_step (num_details : ℕ) : ℚ :=
  if 1 < num_details then -detail_angle_span / (max (num_details - 1) 1 : ℕ) else 0

/-- base_angle: the topic's direction from the root (in degrees) plus half
    the angular span. -/
def base_angle (topic_angle : ℚ) : ℚ := topic_angle + detail_angle_span / 2

/-- Angle (in degrees) of detail j among num_details details of a topic:
    base_angle + j * detail_angle_step. -/
def detail_angle (topic_angle : ℚ) (num_details j : ℕ) : ℚ :=
  base_angle topic_angle + j * detail_angle_step num_details

/-- horizontal_spacing = self.detail_width * 1.5. -/
def horizontal_spacing : ℚ := detail_width * (3 / 2)

/-- current_detail_distance = self.detail_distance + j * horizontal_spacing. -/
def detail_radius (j : ℕ) : ℚ := detail_distance + j * horizontal_spacing

-- ## TextNodeItem.update_animation (src/layout.py lines 425-435)

/-- One animation timer tick: returns the new animation_progress and whether
    this tick stopped the timer (the convergence branch snaps progress to
    target and calls animation_timer.stop()).  animation_speed = 0.15. -/
def update_animation (progress target : ℚ) : ℚ × Bool :=
  if |progress - target| < 1 / 100 then (target, true)
  else (progress + (target - progress) * (15 / 100), false)

/-- The progress sequence starting at 0 with target 1 (expansion). -/
def anim : ℕ → ℚ
  | 0 => 0
  | n + 1 => (update_animation (anim n) 1).1

-- ## TextNodeItem.get_connection_point (src/layout.py lines 437-514)

/-- A 2D point (Python floats modelled as rationals). -/
structure Pt where
  x : ℚ
  y : ℚ
deriving DecidableEq, Repr

/-- Collapsed-silhouette branch of get_connection_point (taken when
    current_scale < scale_threshold and is_detail): axis-aligned edge point
    of the current interpolated rectangle of width w and height h centered
    at center. -/
def get_connection_point_collapsed (center : Pt) (w h : ℚ) (target : Pt) : Pt :=
  if |target.x - center.x| > |target.y - center.y| then
    ⟨if target.x < center.x then center.x - w / 2 else center.x + w / 2,
     center.y⟩
  else
    ⟨center.x,
     if target.y < center.y then center.y - h / 2 else center.y + h / 2⟩

/-- Regular branch of get_connection_point: slope comparison against the
    current interpolated rectangle of width w and height h centered at
    center.  The dead-vertical case (target.x == center.x) clamps to the
    top/bottom edge midpoint. -/
def get_connection_point_regular (center : Pt) (w h : ℚ) (target : Pt) : Pt :=
  if target.x = center.x then
    ⟨center.x,
     if target.y < center.y then center.y - h / 2 else center.y + h / 2⟩
  else
    let slope := (target.y - center.y) / (target.x - center.x)
    if |slope| < h / w then
      let px := if target.x < center.x then center.x - w / 2 else center.x + w / 2
      ⟨px, center.y + slope * (px - center.x)⟩
    else
      let py := if target.y < center.y then center.y - h / 2 else center.y + h / 2
      ⟨center.x + (py - center.y) / slope, py⟩

/-- A point lies on the boundary of the axis-aligned rectangle with the
    given center, width w and height h. -/
def onBoundary (center : Pt) (w h : ℚ) (p : Pt) : Prop :=
  (|p.x - center.x| = w / 2 ∧ |p.y - center.y| ≤ h / 2) ∨
  (|p.y - center.y| = h / 2 ∧ |p.x - center.x| ≤ w / 2)

-- ## ClusterDiagramWidget.calculate_optimal_scale / auto_fit
-- (src/layout.py lines 695-720)

/-- self.min_scale. -/
def min_scale : ℚ := 1 / 10

/-- self.max_scale. -/
def max_scale : ℚ := 3

/-- ClusterDiagramWidget.calculate_optimal_scale.  The scene is abstracted
    by whether self.scene.items() is nonempty and by the width/height of
    itemsBoundingRect; the viewport by its width/height.  A Python
    ZeroDivisionError (float division by zero when the bounding box has
    zero width or height) is modelled as none. -/
def calculate_optimal_scale (items_nonempty : Bool) (scene_w scene_h vp_w vp_h : ℚ) :
    Option ℚ :=
  if items_nonempty = false then some 1
  else if scene_w = 0 ∨ scene_h = 0 then none
  else
    some (max min_scale (min max_scale
      (min ((vp_w - 100) / scene_w) ((vp_h - 100) / scene_h))))

/-- ClusterDiagramWidget.auto_fit: the new scale_factor it installs,
    given the previous scale_factor (which the code never consults). -/
def auto_fit_scale (prev_scale : ℚ) (items_nonempty : Bool)
    (scene_w scene_h vp_w vp_h : ℚ) : Option ℚ :=
  calculate_optimal_scale items_nonempty scene_w scene_h vp_w vp_h

-- ## FilenameLabelWidget explanation session (src/main.py lines 258-520)

/-- The per-node explanation session state: the accumulator, whether a
    worker thread object exists (self.explanation_worker is not None),
    whether it is running, and the is_showing_explanation flag. -/
structure ExplanationState where
  accumulated_markdown : String
  has_worker : Bool
  is_worker_running : Bool
  is_showing_explanation : Bool
deriving DecidableEq, Repr

/-- The marker appended by stop_explanation. -/
def interruption_marker : String := "\n\n*Explanation interrupted.*"

/-- The start branch of on_explain_clicked: clears the accumulator, sets
    is_worker_running, creates and starts the worker. -/
def start_explanation (_s : ExplanationState) : ExplanationState :=
  { accumulated_markdown := ""
    has_worker := true
    is_worker_running := true
    is_showing_explanation := false }

/-- FilenameLabelWidget.handle_chunk_received: appends the chunk to the
    accumulator (and rerenders it into the second text edit). -/
def handle_chunk_received (s : ExplanationState) (chunk : String) : ExplanationState :=
  { s with accumulated_markdown := s.accumulated_markdown ++ chunk }

/-- FilenameLabelWidget.handle_explanation_finished: clears the running
    flag, marks the explanation as showing, and discards the worker. -/
def handle_explanation_finished (s : ExplanationState) : ExplanationState :=
  { s with is_worker_running := false
           is_showing_explanation := true
           has_worker := false }

/-- FilenameLabelWidget.stop_explanation: if a worker exists and is running,
    stop it, wait for the thread to finish (the wait is modelled by the
    sequential ordering below), run handle_explanation_finished, then append
    the interruption marker to the accumulator. -/
def stop_explanation (s : ExplanationState) : ExplanationState :=
  if s.has_worker && s.is_worker_running then
    let s1 := handle_explanation_finished s
    { s1 with accumulated_markdown := s1.accumulated_markdown ++ interruption_marker }
  else s

-- ## Concrete scenario data for the C1 scenario

/-- The scanned tree of the C1 scenario: a root directory named "project"
    holding README.md and one subdirectory src containing a.py and b.py. -/
def scenario_tree : FSTree :=
  .node "project" ["README.md"] [.node "src" ["a.py", "b.py"] []]

/-- A concrete summary provider for the scenario. -/
def scenario_api : String → String := fun _ => "summary"

/-- A concrete file content reader for the scenario. -/
def scenario_fc : String → Option String := fun _ => none

/-- Events emitted by the first walk of the scenario tree. -/
def scenario_events : List Event :=
  (process_directory_once
    (file_system_generator scenario_api scenario_fc "Main Topic" scenario_tree)
    []).1

/-- The diagram model after the emitted events are applied in order. -/
def scenario_final : DiagramState :=
  apply_events ⟨[], []⟩ scenario_events

/-- Session state after starting an explanation, receiving three chunks and
    then stopping it. -/
def stopped_after_three_chunks (s0 : ExplanationState) (c1 c2 c3 : String) :
    ExplanationState :=
  stop_explanation (handle_chunk_received (handle_chunk_received
    (handle_chunk_received (start_explanation s0) c1) c2) c3)

-- ## Helper lemmas about the deduplicating emitter

/-- The processed_items set only grows during a pass. -/
theorem pdo_mono (evs : List Event) :
    ∀ (s : List String) (k : String), k ∈ s →
      k ∈ (process_directory_once evs s).2 := by
  induction evs with
  | nil => intro s k hk; simpa [process_directory_once] using hk
  | cons e rest ih =>
    intro s k hk
    by_cases h : item_key e ∈ s
    · simpa [process_directory_once, h] using ih s k hk
    · simpa [process_directory_once, h] using
        ih (item_key e :: s) k (List.mem_cons_of_mem _ hk)

/-- After a pass, the key of every walked event is recorded. -/
theorem pdo_records (evs : List Event) :
    ∀ (s : List String) (e : Event), e ∈ evs →
      item_key e ∈ (process_directory_once evs s).2 := by
  induction evs with
  | nil => intro s e he; simp at he
  | cons a rest ih =>
    intro s e he
    rcases List.mem_cons.mp he with rfl | hm
    · by_cases h : item_key e ∈ s
      · simpa [process_directory_once, h] using pdo_mono rest s _ h
      · simpa [process_directory_once, h] using
          pdo_mono rest (item_key e :: s) _ (List.mem_cons_self _ _)
    · by_cases h : item_key a ∈ s
      · simpa [process_directory_once, h] using ih s e hm
      · simpa [process_directory_once, h] using ih (item_key a :: s) e hm

/-- A pass over events whose keys are all recorded emits nothing. -/
theorem pdo_no_new_emissions (evs : List Event) :
    ∀ s : List String, (∀ e ∈ evs, item_key e ∈ s) →
      (process_directory_once evs s).1 = [] := by
  induction evs with
  | nil => intro s _; simp [process_directory_once]
  | cons a rest ih =>
    intro s h
    have ha : item_key a ∈ s := h a (List.mem_cons_self a rest)
    simpa [process_directory_once, ha] using
      ih s (fun e he => h e (List.mem_cons_of_mem _ he))

/-- Every emitted event has a key that was not yet recorded when the pass
    started: recorded keys are never re-emitted. -/
theorem pdo_emitted_fresh (evs : List Event) :
    ∀ (s : List String) (e : Event), e ∈ (process_directory_once evs s).1 →
      item_key e ∉ s := by
  induction evs with
  | nil => intro s e he; simp [process_directory_once] at he
  | cons a rest ih =>
    intro s e he
    by_cases h : item_key a ∈ s
    · exact ih s e (by simpa [process_directory_once, h] using he)
    · have he' : e = a ∨ e ∈ (process_directory_once rest (item_key a :: s)).1 := by
        simpa [process_directory_once, h] using he
      rcases he' with rfl | hm
      · exact h
      · intro hks
        exact ih (item_key a :: s) e hm (List.mem_cons_of_mem _ hks)

-- ## Claim theorems

/-- C1 counterexample: in the scenario with root directory "project"
    containing README.md and src/{a.py, b.py}, the diagram model built from
    the emitted events never contains a synthetic Topic labelled
    "Root Files"; the claimed final topic map is therefore wrong. -/
theorem C1_counterexample :
    hasKey "Root Files" scenario_final.subtopics = false ∧
    scenario_final.subtopics ≠ [("src", ["a.py", "b.py"]), ("Root Files", ["README.md"])] ∧
    scenario_final.subtopics ≠ [("Root Files", ["README.md"]), ("src", ["a.py", "b.py"])] := by
  refine ⟨by decide, by decide, by decide⟩

/-- C1 (amended): scanning a tree whose root directory is named "project"
    and contains README.md plus a subdirectory src with a.py and b.py
    yields one Topic "src" with ordered detail children a.py then b.py, and
    one Topic labelled with the root directory's basename "project" (not a
    synthetic "Root Files" topic) whose only child is README.md; with two
    topics, consecutive topic angles are 180 degrees apart. -/
theorem C1_scenario_layout :
    scenario_final.subtopics = [("project", ["README.md"]), ("src", ["a.py", "b.py"])] ∧
    topic_angle_deg 2 0 - topic_angle_deg 2 1 = 180 := by
  constructor
  · decide
  · norm_num [topic_angle_deg, topic_angle_step, start_angle]

/-- C2: walking an unchanged tree a second time emits zero new events:
    every event of the walk has its dedup key recorded in the processed set
    after the first pass, so the second pass over the same events emits
    nothing, and the processed set only grows during a pass. -/
theorem C2_idempotent_walk (api : String → String) (fc : String → Option String)
    (t : FSTree) (s0 : List String) :
    (∀ e ∈ file_system_generator api fc "Main Topic" t,
        item_key e ∈
          (process_directory_once (file_system_generator api fc "Main Topic" t) s0).2) ∧
    (process_directory_once (file_system_generator api fc "Main Topic" t)
        (process_directory_once (file_system_generator api fc "Main Topic" t) s0).2).1 = [] ∧
    (∀ k ∈ s0,
        k ∈ (process_directory_once (file_system_generator api fc "Main Topic" t) s0).2) := by
  refine ⟨fun e he => pdo_records _ s0 e he, ?_, fun k hk => pdo_mono _ s0 k hk⟩
  exact pdo_no_new_emissions _ _ (fun e he => pdo_records _ s0 e he)

/-- C2 witness at a concrete one-directory tree. -/
theorem C2_witness :
    item_key ⟨"subtopic", "Main Topic", "root", none, none⟩ ∈
      (process_directory_once
        (file_system_generator (fun _ => "s") (fun _ => none) "Main Topic"
          (.node "root" ["f.py"] []))
        []).2 :=
  (C2_idempotent_walk (fun _ => "s") (fun _ => none) (.node "root" ["f.py"] []) []).1
    ⟨"subtopic", "Main Topic", "root", none, none⟩ (by decide)

/-- C10: a detail event whose parent is neither a key of the topic map nor
    "Main Topic" leaves the diagram model completely unchanged (no node, no
    payload, no error), and since the emitter records the dedup key at
    emission time, no later pass ever emits an event with that key again. -/
theorem C10_orphan_detail_dropped (st : DiagramState) (e : Event)
    (hkind : e.kind = "detail")
    (hparent : hasKey e.parent st.subtopics = false)
    (hmain : e.parent ≠ "Main Topic") :
    handle_new_data st e = st ∧
    (∀ (evs : List Event) (s : List String), item_key e ∈ s →
      ∀ e' ∈ (process_directory_once evs s).1, item_key e' ≠ item_key e) := by
  constructor
  · simp [handle_new_data, hkind, hparent, hmain]
  · intro evs s hk e' he' heq
    exact pdo_emitted_fresh evs s e' he' (heq ▸ hk)

/-- C10 witness at a concrete orphan event. -/
theorem C10_witness :
    handle_new_data ⟨[("src", [])], []⟩ ⟨"detail", "lib", "x.py", none, none⟩ =
      ⟨[("src", [])], []⟩ :=
  (C10_orphan_detail_dropped ⟨[("src", [])], []⟩ ⟨"detail", "lib", "x.py", none, none⟩
    rfl (by decide) (by decide)).1

/-- C3 counterexample: for a .py file of size 10001 the code returns only
    the fixed placeholder, whose length is far below 10000, so the first
    10000 bytes of the file are not shown alongside the notice. -/
theorem C3_counterexample :
    read_file_content ".py" 10001 (.ok (String.mk (List.replicate 10001 'a'))) =
      some too_large_message ∧
    too_large_message.length < 10000 := by
  refine ⟨by decide, by decide⟩

/-- C3 (amended): for every text-extension file whose size exceeds the
    10000-byte ceiling, content capture does not fail: it returns the fixed
    placeholder string that flags the truncation, without including any of
    the file's content. -/
theorem C3_oversized_placeholder (file_ext : String) (file_size : Nat)
    (file_text : Except String String)
    (hext : str_lower file_ext ∈ text_extensions)
    (hsize : 10000 < file_size) :
    read_file_content file_ext file_size file_text = some too_large_message := by
  simp [read_file_content, hext, hsize]

/-- C3 witness at a concrete oversized file. -/
theorem C3_witness :
    read_file_content ".PY" 10001 (.ok "x") = some too_large_message :=
  C3_oversized_placeholder ".PY" 10001 (.ok "x") (by decide) (by decide)

/-- C4 counterexample: fitting an empty scene with previous scale 2 yields
    the constant scale 1, not the previous scale. -/
theorem C4_counterexample :
    auto_fit_scale 2 false 0 0 800 600 = some 1 ∧ (1 : ℚ) ≠ 2 := by
  refine ⟨by decide, by norm_num⟩

/-- C4 (amended): a fit on an empty scene never divides by zero and always
    installs the constant scale 1.0 regardless of the previous scale (it is
    not a no-op returning the previous scale); with items present, a
    zero-width or zero-height bounding box makes the ratio computation
    divide by zero (a Python ZeroDivisionError, modelled as none) — though
    every node item the program creates has positive extent. -/
theorem C4_degenerate_fit (prev_scale scene_w scene_h vp_w vp_h : ℚ) :
    auto_fit_scale prev_scale false scene_w scene_h vp_w vp_h = some 1 ∧
    (scene_w = 0 ∨ scene_h = 0 →
      auto_fit_scale prev_scale true scene_w scene_h vp_w vp_h = none) := by
  constructor
  · simp [auto_fit_scale, calculate_optimal_scale]
  · intro h
    show calculate_optimal_scale true scene_w scene_h vp_w vp_h = none
    unfold calculate_optimal_scale
    rw [if_neg (by simp), if_pos h]

/-- C4 witness at a concrete zero-width bounding box. -/
theorem C4_witness : auto_fit_scale 5 true 0 7 800 600 = none :=
  (C4_degenerate_fit 5 0 7 800 600).2 (Or.inl rfl)

/-- The collapsed-silhouette anchor always lies on the rectangle boundary. -/
theorem conn_collapsed_boundary (center target : Pt) (w h : ℚ)
    (hw : 0 < w) (hh : 0 < h) :
    onBoundary center w h (get_connection_point_collapsed center w h target) := by
  have hw2 : (0 : ℚ) ≤ w / 2 := by positivity
  have hh2 : (0 : ℚ) ≤ h / 2 := by positivity
  unfold get_connection_point_collapsed onBoundary
  split_ifs with h1 h2 h3
  · refine Or.inl ⟨?_, ?_⟩
    · dsimp only
      rw [show center.x - w / 2 - center.x = -(w / 2) by ring, abs_neg,
        abs_of_nonneg hw2]
    · dsimp only
      simpa using hh2
  · refine Or.inl ⟨?_, ?_⟩
    · dsimp only
      rw [show center.x + w / 2 - center.x = w / 2 by ring, abs_of_nonneg hw2]
    · dsimp only
      simpa using hh2
  · refine Or.inr ⟨?_, ?_⟩
    · dsimp only
      rw [show center.y - h / 2 - center.y = -(h / 2) by ring, abs_neg,
        abs_of_nonneg hh2]
    · dsimp only
      simpa using hw2
  · refine Or.inr ⟨?_, ?_⟩
    · dsimp only
      rw [show center.y + h / 2 - center.y = h / 2 by ring, abs_of_nonneg hh2]
    · dsimp only
      simpa using hw2

/-- The slope-comparison anchor always lies on the rectangle boundary. -/
theorem conn_regular_boundary (center target : Pt) (w h : ℚ)
    (hw : 0 < w) (hh : 0 < h) :
    onBoundary center w h (get_connection_point_regular center w h target) := by
  have hw2 : (0 : ℚ) ≤ w / 2 := by positivity
  have hh2 : (0 : ℚ) ≤ h / 2 := by positivity
  by_cases hx : target.x = center.x
  · unfold get_connection_point_regular onBoundary
    rw [if_pos hx]
    by_cases hy : target.y < center.y
    · rw [if_pos hy]
      refine Or.inr ⟨?_, ?_⟩
      · dsimp only
        rw [show center.y - h / 2 - center.y = -(h / 2) by ring, abs_neg,
          abs_of_nonneg hh2]
      · dsimp only
        simpa using hw2
    · rw [if_neg hy]
      refine Or.inr ⟨?_, ?_⟩
      · dsimp only
        rw [show center.y + h / 2 - center.y = h / 2 by ring, abs_of_nonneg hh2]
      · dsimp only
        simpa using hw2
  · unfold get_connection_point_regular onBoundary
    rw [if_neg hx]
    dsimp only
    set s : ℚ := (target.y - center.y) / (target.x - center.x) with hs
    by_cases hlt : |s| < h / w
    · rw [if_pos hlt]
      have hste : |s| * (w / 2) ≤ h / 2 := by
        have h1 : |s| * (w / 2) < (h / w) * (w / 2) :=
          mul_lt_mul_of_pos_right hlt (by positivity)
        have h2 : (h / w) * (w / 2) = h / 2 := by
          field_simp
        linarith
      by_cases hxlt : target.x < center.x
      · rw [if_pos hxlt]
        refine Or.inl ⟨?_, ?_⟩
        · dsimp only
          rw [show center.x - w / 2 - center.x = -(w / 2) by ring, abs_neg,
            abs_of_nonneg hw2]
        · dsimp only
          calc |center.y + s * (center.x - w / 2 - center.x) - center.y|
              = |s| * (w / 2) := by
                rw [show center.y + s * (center.x - w / 2 - center.x) - center.y
                    = s * (-(w / 2)) by ring, abs_mul, abs_neg, abs_of_nonneg hw2]
            _ ≤ h / 2 := hste
      · rw [if_neg hxlt]
        refine Or.inl ⟨?_, ?_⟩
        · dsimp only
          rw [show center.x + w / 2 - center.x = w / 2 by ring, abs_of_nonneg hw2]
        · dsimp only
          calc |center.y + s * (center.x + w / 2 - center.x) - center.y|
              = |s| * (w / 2) := by
                rw [show center.y + s * (center.x + w / 2 - center.x) - center.y
                    = s * (w / 2) by ring, abs_mul, abs_of_nonneg hw2]
            _ ≤ h / 2 := hste
    · rw [if_neg hlt]
      have hhw : (0 : ℚ) < h / w := by positivity
      have hles : h / w ≤ |s| := not_lt.mp hlt
      have hspos : (0 : ℚ) < |s| := lt_of_lt_of_le hhw hles
      have key : h / 2 / |s| ≤ w / 2 := by
        rw [div_le_iff hspos]
        have hsw : h ≤ |s| * w := (div_le_iff hw).mp hles
        have heq : w / 2 * |s| = |s| * w / 2 := by ring
        linarith
      by_cases hylt : target.y < center.y
      · rw [if_pos hylt]
        refine Or.inr ⟨?_, ?_⟩
        · dsimp only
          rw [show center.y - h / 2 - center.y = -(h / 2) by ring, abs_neg,
            abs_of_nonneg hh2]
        · dsimp only
          rw [show center.x + (center.y - h / 2 - center.y) / s - center.x
              = -(h / 2) / s by ring, abs_div, abs_neg, abs_of_nonneg hh2]
          exact key
      · rw [if_neg hylt]
        refine Or.inr ⟨?_, ?_⟩
        · dsimp only
          rw [show center.y + h / 2 - center.y = h / 2 by ring, abs_of_nonneg hh2]
        · dsimp only
          rw [show center.x + (center.y + h / 2 - center.y) / s - center.x
              = h / 2 / s by ring, abs_div, abs_of_nonneg hh2]
          exact key

/-- C5: for every rectangle with positive interpolated width and height and
    every target point, both modes of get_connection_point return a point
    on the rectangle's boundary; the dead-vertical case clamps to the
    top/bottom edge midpoint; and in the branch that divides by the slope,
    the slope is never zero. -/
theorem C5_anchor_geometry (center target : Pt) (w h : ℚ)
    (hw : 0 < w) (hh : 0 < h) :
    onBoundary center w h (get_connection_point_collapsed center w h target) ∧
    onBoundary center w h (get_connection_point_regular center w h target) ∧
    (target.x = center.x →
      get_connection_point_regular center w h target =
        ⟨center.x, if target.y < center.y then center.y - h / 2 else center.y + h / 2⟩) ∧
    (target.x ≠ center.x →
      ¬ |(target.y - center.y) / (target.x - center.x)| < h / w →
      (target.y - center.y) / (target.x - center.x) ≠ 0) := by
  refine ⟨conn_collapsed_boundary center target w h hw hh,
          conn_regular_boundary center target w h hw hh, ?_, ?_⟩
  · intro hx
    unfold get_connection_point_regular
    rw [if_pos hx]
  · intro hx hlt h0
    rw [h0, abs_zero] at hlt
    exact hlt (by positivity)

/-- C5 witness at a concrete rectangle and target. -/
theorem C5_witness :
    onBoundary ⟨0, 0⟩ 4 2 (get_connection_point_collapsed ⟨0, 0⟩ 4 2 ⟨10, 1⟩) ∧
    onBoundary ⟨0, 0⟩ 4 2 (get_connection_point_regular ⟨0, 0⟩ 4 2 ⟨10, 1⟩) ∧
    ((Pt.mk 10 1).x = (Pt.mk 0 0).x →
      get_connection_point_regular ⟨0, 0⟩ 4 2 ⟨10, 1⟩ =
        ⟨(Pt.mk 0 0).x,
         if (Pt.mk 10 1).y < (Pt.mk 0 0).y then (Pt.mk 0 0).y - 2 / 2
         else (Pt.mk 0 0).y + 2 / 2⟩) ∧
    ((Pt.mk 10 1).x ≠ (Pt.mk 0 0).x →
      ¬ |((Pt.mk 10 1).y - (Pt.mk 0 0).y) / ((Pt.mk 10 1).x - (Pt.mk 0 0).x)| < 2 / 4 →
      ((Pt.mk 10 1).y - (Pt.mk 0 0).y) / ((Pt.mk 10 1).x - (Pt.mk 0 0).x) ≠ 0) :=
  C5_anchor_geometry ⟨0, 0⟩ ⟨10, 1⟩ 4 2 (by norm_num) (by norm_num)

/-- Closed form of the expansion animation before convergence. -/
theorem anim_closed : ∀ n : ℕ, n ≤ 29 → anim n = 1 - (17 / 20 : ℚ) ^ n := by
  intro n
  induction n with
  | zero => intro _; simp [anim]
  | succ k ih =>
    intro hn
    have hk : k ≤ 28 := Nat.succ_le_succ_iff.mp hn
    have hck : anim k = 1 - (17 / 20 : ℚ) ^ k := ih (le_trans hk (by norm_num))
    have hq0 : (0 : ℚ) ≤ 17 / 20 := by norm_num
    have hq1 : (17 / 20 : ℚ) ≤ 1 := by norm_num
    have hpow : (17 / 20 : ℚ) ^ 28 ≤ (17 / 20 : ℚ) ^ k :=
      pow_le_pow_of_le_one hq0 hq1 hk
    have h28 : (1 / 100 : ℚ) ≤ (17 / 20 : ℚ) ^ 28 := by norm_num
    have habs : ¬ |anim k - 1| < 1 / 100 := by
      rw [hck, show (1 : ℚ) - (17 / 20) ^ k - 1 = -((17 / 20) ^ k) by ring,
        abs_neg, abs_of_nonneg (pow_nonneg hq0 k)]
      exact not_lt.mpr (le_trans h28 hpow)
    show (update_animation (anim k) 1).1 = _
    rw [update_animation, if_neg habs]
    dsimp only
    rw [hck]
    ring

/-- The animation converges exactly to the target on tick 30. -/
theorem anim_30 : anim 30 = 1 := by
  have h29 : anim 29 = 1 - (17 / 20 : ℚ) ^ 29 := anim_closed 29 (le_refl _)
  have habs : |anim 29 - 1| < 1 / 100 := by
    rw [h29, show (1 : ℚ) - (17 / 20) ^ 29 - 1 = -((17 / 20) ^ 29) by ring,
      abs_neg, abs_of_nonneg (by positivity)]
    norm_num
  show (update_animation (anim 29) 1).1 = 1
  rw [update_animation, if_pos habs]

/-- After convergence the progress stays at the target forever. -/
theorem anim_stable : ∀ k : ℕ, anim (30 + k) = 1 := by
  intro k
  induction k with
  | zero => exact anim_30
  | succ m ih =>
    show (update_animation (anim (30 + m)) 1).1 = 1
    rw [ih, update_animation, if_pos (by norm_num)]

/-- C6: starting at progress 0 with target 1, every tick taken while
    |progress - target| is at least the 0.01 threshold strictly shrinks the
    distance; the distance drops below the threshold by tick 29; any tick
    that sees distance below the threshold snaps progress exactly to the
    target and stops the timer; and from tick 30 on the progress is exactly
    1 and every further tick leaves it unchanged with the timer stopped. -/
theorem C6_animation_convergence :
    (∀ n : ℕ, 1 / 100 ≤ |anim n - 1| → |anim (n + 1) - 1| < |anim n - 1|) ∧
    |anim 29 - 1| < 1 / 100 ∧
    (∀ p : ℚ, |p - 1| < 1 / 100 → update_animation p 1 = (1, true)) ∧
    (∀ m : ℕ, 30 ≤ m → anim m = 1 ∧ update_animation (anim m) 1 = (1, true)) := by
  refine ⟨?_, ?_, ?_, ?_⟩
  · intro n hge
    have hne : ¬ |anim n - 1| < 1 / 100 := not_lt.mpr hge
    have hstep : anim (n + 1) = anim n + (1 - anim n) * (15 / 100) := by
      show (update_animation (anim n) 1).1 = _
      rw [update_animation, if_neg hne]
    have h1 : anim (n + 1) - 1 = (anim n - 1) * (17 / 20) := by
      rw [hstep]; ring
    rw [h1, abs_mul, abs_of_nonneg (show (0 : ℚ) ≤ 17 / 20 by norm_num)]
    have hpos : 0 < |anim n - 1| := lt_of_lt_of_le (by norm_num) hge
    exact mul_lt_of_lt_one_right hpos (by norm_num)
  · rw [anim_closed 29 (le_refl _),
      show (1 : ℚ) - (17 / 20) ^ 29 - 1 = -((17 / 20) ^ 29) by ring,
      abs_neg, abs_of_nonneg (by positivity)]
    norm_num
  · intro p hp
    rw [update_animation, if_pos hp]
  · intro m hm
    obtain ⟨k, rfl⟩ := Nat.exists_eq_add_of_le hm
    refine ⟨anim_stable k, ?_⟩
    rw [anim_stable k, update_animation, if_pos (by norm_num)]

/-- C6 witness: the first tick strictly shrinks the distance, and a
    converged tick is the identity with the timer stopped. -/
theorem C6_witness :
    |anim (0 + 1) - 1| < |anim 0 - 1| ∧ update_animation 1 1 = (1, true) := by
  refine ⟨C6_animation_convergence.1 0 ?_, C6_animation_convergence.2.2.1 1 (by norm_num)⟩
  rw [show anim 0 = 0 from rfl, zero_sub, abs_neg, abs_one]
  norm_num

/-- C7: topic i of n topics is placed on the circle of fixed radius
    distance_from_center at angle 90 + i * (-(360/n)) degrees, so
    consecutive topic angles are exactly 360/n degrees apart. -/
theorem C7_topic_spacing (n i : ℕ) (hn : 1 ≤ n) :
    topic_angle_deg n i = 90 + (i : ℚ) * (-(360 / (n : ℚ))) ∧
    topic_angle_deg n i - topic_angle_deg n (i + 1) = 360 / (n : ℚ) ∧
    (topic_polar n i).1 = distance_from_center := by
  refine ⟨?_, ?_, rfl⟩
  · simp [topic_angle_deg, topic_angle_step, start_angle, neg_div]
  · simp only [topic_angle_deg, topic_angle_step, start_angle]
    push_cast
    ring

/-- C7 witness at two topics. -/
theorem C7_witness :
    topic_angle_deg 2 0 - topic_angle_deg 2 1 = 360 / ((2 : ℕ) : ℚ) :=
  (C7_topic_spacing 2 0 (by norm_num)).2.1

/-- C8: detail j of m details of a topic is placed at angle
    base - j * (span/(m-1)) degrees (exactly at base when m = 1, step 0),
    with base the topic direction plus span/2, and at radius
    detail_distance + j * (detail_width * 1.5), which strictly increases
    with j. -/
theorem C8_detail_placement (topic_angle : ℚ) (m : ℕ) (hm : 1 ≤ m) :
    (m = 1 → ∀ j : ℕ, detail_angle topic_angle m j = base_angle topic_angle) ∧
    (2 ≤ m → ∀ j : ℕ, detail_angle topic_angle m j =
      base_angle topic_angle - j * (detail_angle_span / ((m : ℚ) - 1))) ∧
    (∀ j : ℕ, detail_radius j = detail_distance + j * (detail_width * (3 / 2))) ∧
    (∀ j : ℕ, detail_radius j < detail_radius (j + 1)) := by
  refine ⟨?_, ?_, fun j => rfl, ?_⟩
  · rintro rfl j
    simp [detail_angle, detail_angle_step]
  · intro h2 j
    have hmax : max (m - 1) 1 = m - 1 := max_eq_left (by omega)
    have hcast : ((m - 1 : ℕ) : ℚ) = (m : ℚ) - 1 := by
      push_cast [Nat.cast_sub hm]
      ring
    simp only [detail_angle, detail_angle_step, if_pos (show 1 < m by omega), hmax,
      hcast, neg_div]
    ring
  · intro j
    simp only [detail_radius, horizontal_spacing, detail_width, detail_distance]
    push_cast
    nlinarith [Nat.cast_nonneg (α := ℚ) j]

/-- C8 witness at a topic angle of 0 degrees with two details. -/
theorem C8_witness :
    detail_angle 0 2 1 = base_angle 0 - ((1 : ℕ) : ℚ) * (detail_angle_span / (((2 : ℕ) : ℚ) - 1)) :=
  (C8_detail_placement 0 2 (by norm_num)).2.1 (by norm_num) 1

/-- C9: starting a session, receiving three chunks and stopping leaves the
    accumulator equal to the three chunks in order followed by exactly one
    interruption marker, with the worker no longer running; a further stop
    changes nothing (so no second marker is ever appended); and stop, when
    a worker is running, is exactly the finished-handling (performed after
    waiting for the worker thread) followed by the marker append. -/
theorem C9_stop_after_three_chunks (s0 : ExplanationState) (c1 c2 c3 : String) :
    (stopped_after_three_chunks s0 c1 c2 c3).accumulated_markdown =
      ((c1 ++ c2) ++ c3) ++ interruption_marker ∧
    (stopped_after_three_chunks s0 c1 c2 c3).is_worker_running = false ∧
    stop_explanation (stopped_after_three_chunks s0 c1 c2 c3) =
      stopped_after_three_chunks s0 c1 c2 c3 ∧
    (∀ s : ExplanationState, s.has_worker = true → s.is_worker_running = true →
      stop_explanation s =
        { handle_explanation_finished s with
            accumulated_markdown :=
              (handle_explanation_finished s).accumulated_markdown ++
                interruption_marker }) := by
  refine ⟨rfl, rfl, rfl, ?_⟩
  intro s h1 h2
  simp [stop_explanation, h1, h2]

/-- C9 witness: stop on a concrete running session. -/
theorem C9_witness :
    stop_explanation ⟨"abc", true, true, false⟩ =
      { handle_explanation_finished ⟨"abc", true, true, false⟩ with
          accumulated_markdown :=
            (handle_explanation_finished ⟨"abc", true, true, false⟩).accumulated_markdown ++
              interruption_marker } :=
  (C9_stop_after_three_chunks ⟨"", false, false, false⟩ "" "" "").2.2.2
    ⟨"abc", true, true, false⟩ rfl rfl
